import Mathlib

/-!
Shallow embedding of the authentication-and-posting subsystem of the
`kwannz/bera-` repository (TypeScript sources under `src/twitter-client/src`),
together with theorems settling the frozen claims about it.

The embedding covers:
* `RateLimiter.waitForNext` (`utils/rate-limiter.ts`),
* `TwitterGuestAuth.updateGuestToken` / `shouldUpdate` (the guest-token
  manager concatenated into `__tests__/login.test.ts`),
* `TwitterUserAuth.executeFlowTask`, `handleTwoFactorAuthChallenge` and
  `login` (the login flow engine concatenated into `spaces/test.ts`),
* `TwitterClient.postTweet` (`client/TwitterClient.ts`).

Timestamps and delays are naturals counted in milliseconds.  Asynchronous
sleeps (`setTimeout`) are modelled by recording each sleep duration, in
chronological order, in a `delays` list; the idealised clock after a sleep is
the clock before it plus the recorded duration.  The mocked HTTP transport is
a function from the index of the fetch call to the event it produces, exactly
as a mocked fetch would be scripted in a test.
-/

/-! ## Rate limiter (`utils/rate-limiter.ts`) -/

/-- State of a `RateLimiter` instance: the fields `lastRequest` and
`requestCount` (both initialised to 0 by the class). -/
structure RateLimiterState where
  lastRequest : Nat
  requestCount : Nat
deriving DecidableEq, Repr

/-- `maxRequests` constant of `RateLimiter` (50). -/
def maxRequests : Nat := 50

/-- `timeWindow` constant of `RateLimiter` (15 minutes in ms). -/
def timeWindow : Nat := 15 * 60 * 1000

/-- `minDelay` constant of `RateLimiter` (1 second in ms). -/
def minDelay : Nat := 1000

/-- `RateLimiter.waitForNext`, called at clock value `now`.  Returns the total
time slept (ms) and the state after the call.  Following the source, the
elapsed time is computed once, before any sleep; `this.lastRequest` is set to
`Date.now()` after the sleeps, i.e. `now` plus the total sleep. -/
def waitForNext (st : RateLimiterState) (now : Nat) : Nat × RateLimiterState :=
  let timeSinceLastRequest := now - st.lastRequest
  -- Enforce minimum delay between requests
  let sleep1 := if timeSinceLastRequest < minDelay then minDelay - timeSinceLastRequest else 0
  -- Reset counter if time window has passed
  let count1 := if timeSinceLastRequest > timeWindow then 0 else st.requestCount
  -- Check rate limit
  let sleep2 := if count1 ≥ maxRequests then timeWindow - timeSinceLastRequest else 0
  let count2 := if count1 ≥ maxRequests then 0 else count1
  (sleep1 + sleep2,
   { lastRequest := now + sleep1 + sleep2, requestCount := count2 + 1 })

/-- Issues `k` calls to `waitForNext` back to back: each call is made at the
instant the previous one resolves (no elapsed time between them).  Returns the
list of the sleep durations of the successive calls. -/
def issueCallsSleeps : RateLimiterState → Nat → Nat → List Nat
  | _, _, 0 => []
  | st, now, k + 1 =>
    let r := waitForNext st now
    r.1 :: issueCallsSleeps r.2 (now + r.1) k

/-! ## Guest token manager (`TwitterGuestAuth`) -/

/-- The part of the `TwitterGuestAuth` session state touched by
`updateGuestToken` and `shouldUpdate`: the optional guest token, its creation
time, and the cookie jar (modelled as an association list of cookie
key/value pairs). -/
structure GuestAuthState where
  guestToken : Option String
  guestCreatedAt : Option Nat
  jar : List (String × String)
deriving DecidableEq, Repr

/-- Value found at the `guest_token` key of the activation response body:
either a JSON string or some non-string JSON value. -/
inductive GuestTokenField
  | str (s : String)
  | nonString
deriving DecidableEq, Repr

/-- Response of the guest-activation endpoint as seen by `updateGuestToken`:
HTTP success flag, the error body text (read when not ok), the parsed JSON
body (`none` models a null body, `some none` a missing or null `guest_token`
field), and the response headers' cookies. -/
structure ActivateResponse where
  ok : Bool
  errText : String
  body : Option (Option GuestTokenField)
  headers : List (String × String)
deriving DecidableEq, Repr

/-- `updateCookieJar(jar, headers)` (`requests.ts` helper): merges the cookies
carried by the response headers into the jar, replacing a cookie with the same
key and keeping all others. -/
def updateCookieJar (jar : List (String × String)) : List (String × String) → List (String × String)
  | [] => jar
  | c :: cs =>
    updateCookieJar ((jar.filter (fun d => d.1 ≠ c.1)) ++ [c]) cs

/-- `TwitterGuestAuth.hasToken`: `this.guestToken != null`. -/
def hasToken (st : GuestAuthState) : Bool :=
  st.guestToken.isSome

/-- `TwitterGuestAuth.shouldUpdate` at clock `now`: no token, or
`guestCreatedAt < new Date(now - 3h)`. -/
def shouldUpdate (st : GuestAuthState) (now : Nat) : Bool :=
  !(hasToken st) ||
    (match st.guestCreatedAt with
     | some t => decide (t < now - 3 * 60 * 60 * 1000)
     | none => false)

/-- `TwitterGuestAuth.updateGuestToken` applied to the activation response
`res` at clock `now`.  Returns the state after the call (the cookie jar is
merged from the response headers as soon as the fetch resolves, before any
failure check) together with the outcome: `.error` models the thrown `Error`'s
message, `.ok` a normal return. -/
def updateGuestToken (st : GuestAuthState) (res : ActivateResponse) (now : Nat) :
    GuestAuthState × Except String Unit :=
  let st1 : GuestAuthState := { st with jar := updateCookieJar st.jar res.headers }
  if res.ok = false then
    (st1, .error res.errText)
  else
    match res.body with
    | none => (st1, .error "guest_token not found.")
    | some none => (st1, .error "guest_token not found.")
    | some (some .nonString) => (st1, .error "guest_token was not a string.")
    | some (some (.str t)) =>
      ({ st1 with guestToken := some t, guestCreatedAt := some now }, .ok ())

/-! ## Login flow engine (`TwitterUserAuth`, concatenated into `spaces/test.ts`) -/

/-- `TwitterApiErrorRaw`: a platform error entry with a code and a message. -/
structure TwitterApiErrorRaw where
  code : Nat
  message : String
deriving DecidableEq, Repr

/-- `TwitterUserAuthSubtask`: a subtask entry of a flow response.  Only its
`subtask_id` drives the engine's control flow (the optional `enter_text`
payload of the schema is never read). -/
structure TwitterUserAuthSubtask where
  subtask_id : String
deriving DecidableEq, Repr

/-- One event produced by the mocked transport for one fetch of the
onboarding task endpoint: the fetch (or body parse) rejects, the response has
a non-success HTTP status (carrying its body text), or a parsed
`TwitterUserAuthFlowResponse` arrives (`flow_token` is `none` when the field
is missing, null or not a string). -/
inductive FlowEvent
  | fetchError (message : String)
  | httpError (errorText : String)
  | flowResponse (flow_token : Option String) (errors : List TwitterApiErrorRaw)
      (subtasks : List TwitterUserAuthSubtask)
deriving DecidableEq, Repr

/-- The request body sent by one `executeFlowTask` fetch: the flow-init
request, a subtask submission (its `flow_token`, the `subtask_id` and the
textual payload entered, when the step carries one — the username, the
password or the generated two-factor code; fixed non-textual payload objects
are not modelled), or the empty `subtask_inputs: []` submission sent by
`handleSuccessSubtask`.  A `flow_token` of `none` models the `undefined`
token read off a cast error result. -/
inductive FlowRequest
  | init
  | subtaskInput (flow_token : Option String) (subtask_id : String) (text : Option String)
  | emptyInput (flow_token : Option String)
deriving DecidableEq, Repr

/-- `FlowTokenResult`: the value `executeFlowTask` resolves to. -/
inductive FlowTokenResult
  | success (flowToken : String) (subtask : Option TwitterUserAuthSubtask)
  | error (err : String)
deriving DecidableEq, Repr

/-- The flow token field of a `FlowTokenResult` read through the
`FlowTokenResultSuccess` cast: `undefined` (`none`) on an error result. -/
def resultFlowToken : FlowTokenResult → Option String
  | .success ft _ => some ft
  | .error _ => none

/-- The observable trace of one `executeFlowTask` call (including its internal
retries): the resolved value, the index of the next unused transport event,
the sleeps performed (ms, chronological) and the requests actually sent, one
per fetch. -/
structure FlowCallResult where
  result : FlowTokenResult
  next : Nat
  delays : List Nat
  sent : List FlowRequest
deriving DecidableEq, Repr

/-- Body of `executeFlowTask` after the guest-token check, at transport index
`n`.  The recursion of the source is on `retryCount` bounded by `maxRetries`;
here it is carried structurally by `retriesLeft = maxRetries - retryCount`,
so `retryCount < maxRetries` is the pattern `retriesLeft = r + 1` and the
backoff `Math.pow(2, retryCount) * 1000` is `2 ^ (maxRetries - retriesLeft) * 1000`.
Following the source order: non-ok status, transport rejection, flow-token
check (no retry), platform error list, then the `DenyLoginSubtask` check;
the first subtask of the response, if any, is returned with the success. -/
def executeFlowTaskGo (transport : Nat → FlowEvent) (data : FlowRequest) (maxRetries : Nat) :
    Nat → Nat → FlowCallResult
  | n, retriesLeft =>
    match transport n, retriesLeft with
    | .httpError _, r + 1 =>
      let rec' := executeFlowTaskGo transport data maxRetries (n + 1) r
      { rec' with delays := 2 ^ (maxRetries - (r + 1)) * 1000 :: rec'.delays,
                  sent := data :: rec'.sent }
    | .httpError errorText, 0 =>
      { result := .error errorText, next := n + 1, delays := [], sent := [data] }
    | .fetchError _, r + 1 =>
      let rec' := executeFlowTaskGo transport data maxRetries (n + 1) r
      { rec' with delays := 2 ^ (maxRetries - (r + 1)) * 1000 :: rec'.delays,
                  sent := data :: rec'.sent }
    | .fetchError message, 0 =>
      { result := .error message, next := n + 1, delays := [], sent := [data] }
    | .flowResponse none _ _, _ =>
      { result := .error "Invalid flow token", next := n + 1, delays := [], sent := [data] }
    | .flowResponse (some _) (_ :: _) _, r + 1 =>
      let rec' := executeFlowTaskGo transport data maxRetries (n + 1) r
      { rec' with delays := 2 ^ (maxRetries - (r + 1)) * 1000 :: rec'.delays,
                  sent := data :: rec'.sent }
    | .flowResponse (some _) (e :: _) _, 0 =>
      { result := .error ("Authentication error (" ++ toString e.code ++ "): " ++ e.message),
        next := n + 1, delays := [], sent := [data] }
    | .flowResponse (some ft) [] subtasks, r + 1 =>
      if (subtasks.head?.map (fun s => s.subtask_id)) = some "DenyLoginSubtask" then
        let rec' := executeFlowTaskGo transport data maxRetries (n + 1) r
        { rec' with delays := 2 ^ (maxRetries - (r + 1)) * 1000 :: rec'.delays,
                    sent := data :: rec'.sent }
      else
        { result := .success ft subtasks.head?, next := n + 1, delays := [], sent := [data] }
    | .flowResponse (some ft) [] subtasks, 0 =>
      { result := .success ft subtasks.head?, next := n + 1, delays := [], sent := [data] }

/-- `TwitterUserAuth.executeFlowTask` with request `data`, starting at
transport index `n` with the default `retryCount = 0` and `maxRetries = 3`.
If `this.guestToken` is null the method throws before any fetch (`.error`
channel); otherwise it resolves to a `FlowCallResult` (`.ok` channel) — every
other failure is retried internally and then returned as an error result, not
thrown. -/
def executeFlowTask (guestToken : Option String) (transport : Nat → FlowEvent)
    (data : FlowRequest) (n : Nat) : Except String FlowCallResult :=
  match guestToken with
  | none => .error "Authentication token is null or undefined."
  | some _ => .ok (executeFlowTaskGo transport data 3 n 3)

/-- Outcome of `handleTwoFactorAuthChallenge`: the loop either rethrows the
last stored error after its attempts are exhausted (`thrown none` models the
`throw error` of a variable never assigned, i.e. throwing `undefined`), or
returns the value of an `executeFlowTask` call. -/
inductive TwoFactorOutcome
  | thrown (err : Option String)
  | returned (result : FlowTokenResult) (next : Nat)
deriving DecidableEq, Repr

/-- Observable trace of one `handleTwoFactorAuthChallenge` call: its outcome,
all sleeps (the inner exponential ones of `executeFlowTask` and the outer
linear ones of the loop, chronological) and all requests sent. -/
structure TwoFactorRun where
  outcome : TwoFactorOutcome
  delays : List Nat
  sent : List FlowRequest
deriving DecidableEq, Repr

/-- Loop body of `handleTwoFactorAuthChallenge`
(`for (attempts = 1; attempts < 4; attempts += 1)`), carried structurally by
the number of iterations left (`attemptsLeft = 4 - attempts`, so the loop
counter is `attempts = 4 - attemptsLeft`).  `gen a` is the value of
`totp.generate()` during loop attempt `a` (the TOTP code derived from the
secret at that instant).  Each iteration awaits `executeFlowTask` and returns
its value; only a thrown error is caught, stored, followed by a
`2000 * attempts` ms sleep and retried. -/
def handleTwoFactorAuthChallengeGo (guestToken : Option String) (transport : Nat → FlowEvent)
    (flowToken : String) (gen : Nat → String) (n : Nat) :
    Nat → Option String → List Nat → List FlowRequest → TwoFactorRun
  | 0, lastErr, accD, accS => { outcome := .thrown lastErr, delays := accD, sent := accS }
  | left + 1, _, accD, accS =>
    let attempts := 4 - (left + 1)
    match executeFlowTask guestToken transport
        (.subtaskInput (some flowToken) "LoginTwoFactorAuthChallenge" (some (gen attempts))) n with
    | .ok r =>
      { outcome := .returned r.result r.next, delays := accD ++ r.delays, sent := accS ++ r.sent }
    | .error e =>
      handleTwoFactorAuthChallengeGo guestToken transport flowToken gen n left (some e)
        (accD ++ [2000 * attempts]) accS

/-- `TwitterUserAuth.handleTwoFactorAuthChallenge` for the flow token of the
previous successful step, starting at transport index `n`. -/
def handleTwoFactorAuthChallenge (guestToken : Option String) (transport : Nat → FlowEvent)
    (flowToken : String) (gen : Nat → String) (n : Nat) : TwoFactorRun :=
  handleTwoFactorAuthChallengeGo guestToken transport flowToken gen n 3 none [] []

/-- Outcome of `TwitterUserAuth.login`: the promise resolves, or rejects with
an `Error` carrying the given message. -/
inductive LoginOutcome
  | ok
  | thrown (msg : String)
deriving DecidableEq, Repr

/-- Observable trace of one `login` call: its outcome, the requests sent to
the onboarding endpoint (chronological, the flow-init request included) and
the sleeps performed. -/
structure LoginRun where
  outcome : LoginOutcome
  sent : List FlowRequest
  delays : List Nat
deriving DecidableEq, Repr

/-- Tail of `login` after the conditional subtask steps: if the current
subtask is `LoginSuccessSubtask`, `handleSuccessSubtask` sends the empty
`subtask_inputs: []` submission (its result value is not inspected);
otherwise `login` throws `Login flow did not complete successfully`, which its
own catch wraps as `Login failed: ...`. -/
def loginFinish (guestToken : Option String) (transport : Nat → FlowEvent)
    (ft : String) (sub : Option TwitterUserAuthSubtask) (n : Nat)
    (accS : List FlowRequest) (accD : List Nat) : LoginRun :=
  if sub.map (fun s => s.subtask_id) = some "LoginSuccessSubtask" then
    match executeFlowTask guestToken transport (.emptyInput (some ft)) n with
    | .ok r => { outcome := .ok, sent := accS ++ r.sent, delays := accD ++ r.delays }
    | .error e =>
      { outcome := .thrown ("Login failed: " ++ e), sent := accS, delays := accD }
  else
    { outcome := .thrown "Login failed: Login flow did not complete successfully",
      sent := accS, delays := accD }

/-- The `LoginTwoFactorAuthChallenge` conditional of `login`: the handler runs
only when the pending subtask has that id and a truthy (non-empty)
`twoFactorSecret` was supplied; a thrown value is wrapped by the catch of
`login` (`String(undefined)` reads "undefined"), an error result is rethrown
wrapped, a success feeds the final step. -/
def loginTwoFactor (guestToken : Option String) (transport : Nat → FlowEvent)
    (twoFactorSecret : Option String) (gen : String → Nat → String)
    (ft : String) (sub : Option TwitterUserAuthSubtask) (n : Nat)
    (accS : List FlowRequest) (accD : List Nat) : LoginRun :=
  if sub.map (fun s => s.subtask_id) = some "LoginTwoFactorAuthChallenge" then
    match twoFactorSecret with
    | some secret =>
      if secret = "" then
        loginFinish guestToken transport ft sub n accS accD
      else
        let r := handleTwoFactorAuthChallenge guestToken transport ft (gen secret) n
        match r.outcome with
        | .thrown e =>
          { outcome := .thrown ("Login failed: " ++
              (match e with | some m => m | none => "undefined")),
            sent := accS ++ r.sent, delays := accD ++ r.delays }
        | .returned (.error e) _ =>
          { outcome := .thrown ("Login failed: " ++ e),
            sent := accS ++ r.sent, delays := accD ++ r.delays }
        | .returned (.success ft' sub') nx =>
          loginFinish guestToken transport ft' sub' nx (accS ++ r.sent) (accD ++ r.delays)
    | none => loginFinish guestToken transport ft sub n accS accD
  else
    loginFinish guestToken transport ft sub n accS accD

/-- The `AccountDuplicationCheck` conditional of `login`. -/
def loginDupCheck (guestToken : Option String) (transport : Nat → FlowEvent)
    (twoFactorSecret : Option String) (gen : String → Nat → String)
    (ft : String) (sub : Option TwitterUserAuthSubtask) (n : Nat)
    (accS : List FlowRequest) (accD : List Nat) : LoginRun :=
  if sub.map (fun s => s.subtask_id) = some "AccountDuplicationCheck" then
    match executeFlowTask guestToken transport
        (.subtaskInput (some ft) "AccountDuplicationCheck" none) n with
    | .error e =>
      { outcome := .thrown ("Login failed: " ++ e), sent := accS, delays := accD }
    | .ok r =>
      match r.result with
      | .error e =>
        { outcome := .thrown ("Login failed: " ++ e),
          sent := accS ++ r.sent, delays := accD ++ r.delays }
      | .success ft' sub' =>
        loginTwoFactor guestToken transport twoFactorSecret gen ft' sub' r.next
          (accS ++ r.sent) (accD ++ r.delays)
  else
    loginTwoFactor guestToken transport twoFactorSecret gen ft sub n accS accD

/-- `TwitterUserAuth.login` over the mocked transport.  `guestToken` is the
session's guest token after `super.login()`; `gen secret a` is the TOTP code
generated from `secret` at two-factor loop attempt `a`.  Following the
source: falsy (empty) credentials throw before any network call; the
flow-init result is not checked before being cast into the instrumentation
step; each of the instrumentation, identifier and password steps runs
unconditionally and rethrows an error result wrapped as `Login failed: ...`;
the duplication-check and two-factor steps are conditional on the pending
subtask; the secondary v2-client upgrade performs no flow request and is not
modelled. -/
def login (guestToken : Option String) (transport : Nat → FlowEvent)
    (username password email : String) (twoFactorSecret : Option String)
    (gen : String → Nat → String) : LoginRun :=
  if username = "" ∨ password = "" ∨ email = "" then
    { outcome := .thrown "Twitter credentials not available", sent := [], delays := [] }
  else
    match executeFlowTask guestToken transport .init 0 with
    | .error e => { outcome := .thrown e, sent := [], delays := [] }
    | .ok r0 =>
      match executeFlowTask guestToken transport
          (.subtaskInput (resultFlowToken r0.result) "LoginJsInstrumentationSubtask" none)
          r0.next with
      | .error e =>
        { outcome := .thrown ("Login failed: " ++ e), sent := r0.sent, delays := r0.delays }
      | .ok r1 =>
        match r1.result with
        | .error e =>
          { outcome := .thrown ("Login failed: " ++ e),
            sent := r0.sent ++ r1.sent, delays := r0.delays ++ r1.delays }
        | .success ft1 _ =>
          match executeFlowTask guestToken transport
              (.subtaskInput (some ft1) "LoginEnterUserIdentifierSSO" (some username))
              r1.next with
          | .error e =>
            { outcome := .thrown ("Login failed: " ++ e),
              sent := r0.sent ++ r1.sent, delays := r0.delays ++ r1.delays }
          | .ok r2 =>
            match r2.result with
            | .error e =>
              { outcome := .thrown ("Login failed: " ++ e),
                sent := r0.sent ++ r1.sent ++ r2.sent,
                delays := r0.delays ++ r1.delays ++ r2.delays }
            | .success ft2 _ =>
              match executeFlowTask guestToken transport
                  (.subtaskInput (some ft2) "LoginEnterPassword" (some password))
                  r2.next with
              | .error e =>
                { outcome := .thrown ("Login failed: " ++ e),
                  sent := r0.sent ++ r1.sent ++ r2.sent,
                  delays := r0.delays ++ r1.delays ++ r2.delays }
              | .ok r3 =>
                match r3.result with
                | .error e =>
                  { outcome := .thrown ("Login failed: " ++ e),
                    sent := r0.sent ++ r1.sent ++ r2.sent ++ r3.sent,
                    delays := r0.delays ++ r1.delays ++ r2.delays ++ r3.delays }
                | .success ft3 sub3 =>
                  loginDupCheck guestToken transport twoFactorSecret gen ft3 sub3 r3.next
                    (r0.sent ++ r1.sent ++ r2.sent ++ r3.sent)
                    (r0.delays ++ r1.delays ++ r2.delays ++ r3.delays)

/-! ## Posting client (`client/TwitterClient.ts`) -/

/-- `TwitterError` (`types/twitter.ts`). -/
structure TwitterError where
  code : Nat
  message : String
deriving DecidableEq, Repr

/-- `TwitterTweet` (`types/twitter.ts`). -/
structure TwitterTweet where
  id : String
  text : String
  created_at : String
  author_id : String
deriving DecidableEq, Repr

/-- `TwitterResponse<TwitterTweet>` (`types/twitter.ts`): both fields
optional at the type level. -/
structure TwitterRespT where
  data : Option TwitterTweet
  errors : Option (List TwitterError)
deriving DecidableEq, Repr

/-- Outcome of one posting attempt (rate-limiter wait plus
`api.v2.tweet(...)`): the platform answers with a tweet payload (`id` and
`text` — the `TweetV2` type carries no timestamp), the response carries no
`data` (which makes the attempt throw `Error('Failed to create tweet')`
into its own catch), or the awaited call rejects with a value that is or is
not an `Error` instance, carrying the given message. -/
inductive AttemptOutcome
  | ok (id text : String)
  | noData
  | fail (isErrorInstance : Bool) (message : String)
deriving DecidableEq, Repr

/-- The HTTP-ish code attached by the catch of `postTweet` to a failed
attempt: 500 for an `Error` instance (including the internal
`Failed to create tweet` throw), 400 otherwise.  Unused for `ok`, which never
reaches the catch. -/
def attemptFailCode : AttemptOutcome → Nat
  | .ok _ _ => 0
  | .noData => 500
  | .fail isErrorInstance _ => if isErrorInstance then 500 else 400

/-- The message attached by the catch of `postTweet` to a failed attempt.
Unused for `ok`. -/
def attemptFailMessage : AttemptOutcome → String
  | .ok _ _ => ""
  | .noData => "Failed to create tweet"
  | .fail _ message => message

/-- The tweet payload of an attempt outcome, when it has one. -/
def attemptData : AttemptOutcome → Option (String × String)
  | .ok i t => some (i, t)
  | .noData => none
  | .fail _ _ => none

/-- The retry loop of `postTweet`
(`for (attempt = 1; attempt <= retries; attempt++)`), carried structurally by
the number of iterations left (callers maintain `fuel = retries + 1 - attempt`,
so `fuel = 0` is the loop exit reachable only when `retries = 0`).
`outcomes a` is the outcome of posting attempt `a`; `nowIso` is the value of
`new Date().toISOString()` when a response is handled.  Returns the
`TwitterResponse` result and the backoff sleeps (ms) performed between failed
attempts. -/
def postTweetGo (outcomes : Nat → AttemptOutcome) (nowIso : String) (retries : Nat) :
    Nat → Nat → TwitterRespT × List Nat
  | _, 0 =>
    ({ data := none, errors := some [{ code := 500, message := "Maximum retry attempts reached" }] },
     [])
  | attempt, fuel + 1 =>
    match outcomes attempt with
    | .ok i t =>
      ({ data := some { id := i, text := t, created_at := nowIso, author_id := i },
         errors := none }, [])
    | o =>
      if attempt = retries then
        ({ data := none,
           errors := some [{ code := attemptFailCode o, message := attemptFailMessage o }] }, [])
      else
        let r := postTweetGo outcomes nowIso retries (attempt + 1) fuel
        (r.1, 2 ^ attempt * 1000 :: r.2)

/-- `TwitterClient.postTweet(text, replyToTweetId?, retries)`.  `api` is
`this.auth.getApi()`: when `null` (before `initialize()`), the method throws
(`.error` channel) instead of returning a result.  Otherwise the retry loop
runs from attempt 1 with `retries` iterations available and its structured
result is returned (`.ok` channel) together with the backoff sleeps. -/
def postTweet (api : Option Unit) (outcomes : Nat → AttemptOutcome) (nowIso : String)
    (retries : Nat) : Except String (TwitterRespT × List Nat) :=
  match api with
  | none => .error "Not authenticated. Call initialize() first."
  | some _ => .ok (postTweetGo outcomes nowIso retries 1 retries)

/-- Backoff sleeps of the posting loop for attempts `a, a+1, ..., a+m-1`:
`2 ^ attempt * 1000` ms after each of those failed attempts. -/
def backoffDelays : Nat → Nat → List Nat
  | _, 0 => []
  | a, m + 1 => 2 ^ a * 1000 :: backoffDelays (a + 1) m

/-! ## Theorems settling the claims -/

/-- C7: every `waitForNext` call sleeps the remaining delta when less than
1 s elapsed since the last granted call, resets the in-window counter when
more than the 15-minute window elapsed, sleeps the remainder of the window
and resets when the counter reached the ceiling of 50, and on release
increments the counter and records the release instant; consequently 51
back-to-back calls sleep `[0, 1000 × 49, 901000]` (the 51st waits out the
whole remaining window), and two calls 10 ms apart grant the second exactly
1 s after the first. -/
theorem rateLimiter_waitForNext_spec :
    (∀ (st : RateLimiterState) (now : Nat),
      (now - st.lastRequest < 1000 →
        1000 - (now - st.lastRequest) ≤ (waitForNext st now).1) ∧
      (now - st.lastRequest > 15 * 60 * 1000 →
        (waitForNext st now).2.requestCount = 1) ∧
      (st.requestCount ≥ 50 → now - st.lastRequest ≤ 15 * 60 * 1000 →
        15 * 60 * 1000 - (now - st.lastRequest) ≤ (waitForNext st now).1 ∧
        (waitForNext st now).2.requestCount = 1) ∧
      (st.requestCount < 50 → now - st.lastRequest ≤ 15 * 60 * 1000 →
        (waitForNext st now).2.requestCount = st.requestCount + 1) ∧
      (waitForNext st now).2.lastRequest = now + (waitForNext st now).1) ∧
    issueCallsSleeps { lastRequest := 0, requestCount := 0 } 1000000 51 =
      0 :: (List.replicate 49 1000 ++ [901000]) ∧
    waitForNext { lastRequest := 0, requestCount := 0 } 1000000 =
      (0, { lastRequest := 1000000, requestCount := 1 }) ∧
    waitForNext { lastRequest := 1000000, requestCount := 1 } 1000010 =
      (990, { lastRequest := 1001000, requestCount := 2 }) := by
  refine ⟨fun st now => ?_, by decide, by decide, by decide⟩
  simp only [waitForNext, maxRequests, timeWindow, minDelay]
  refine ⟨fun h1 => ?_, fun h2 => ?_, fun h3 h4 => ⟨?_, ?_⟩, fun h5 h6 => ?_, ?_⟩ <;>
    split_ifs <;> simp_all <;> omega

/-- Witness for `rateLimiter_waitForNext_spec` at the state
`lastRequest = 100, requestCount = 5` and clock 110. -/
theorem rateLimiter_waitForNext_spec_witness :
    990 ≤ (waitForNext { lastRequest := 100, requestCount := 5 } 110).1 ∧
    (waitForNext { lastRequest := 100, requestCount := 5 } 110).2.requestCount = 5 + 1 := by
  have h := rateLimiter_waitForNext_spec.1 { lastRequest := 100, requestCount := 5 } 110
  exact ⟨h.1 (by decide), h.2.2.2.1 (by decide) (by decide)⟩

/-- C6: `shouldUpdate` holds exactly when there is no guest token or the
stored creation time is more than 3 hours old; `updateGuestToken` fails with
the response body text on a non-success status, with `guest_token not found.`
on an absent body or missing field, with `guest_token was not a string.` on a
non-string field; in all of these cases (and on success) the cookie jar of
the resulting state is the old jar merged with the response headers' cookies;
on success the guest token and its creation time (the current clock) are
stored. -/
theorem guestToken_refresh_spec :
    (∀ (st : GuestAuthState) (now : Nat),
      shouldUpdate st now = true ↔
        (st.guestToken = none ∨
         ∃ t, st.guestCreatedAt = some t ∧ t + 3 * 60 * 60 * 1000 < now)) ∧
    (∀ (st : GuestAuthState) (res : ActivateResponse) (now : Nat),
      (updateGuestToken st res now).1.jar = updateCookieJar st.jar res.headers) ∧
    (∀ (st : GuestAuthState) (res : ActivateResponse) (now : Nat),
      res.ok = false → (updateGuestToken st res now).2 = .error res.errText) ∧
    (∀ (st : GuestAuthState) (res : ActivateResponse) (now : Nat),
      res.ok = true → (res.body = none ∨ res.body = some none) →
      (updateGuestToken st res now).2 = .error "guest_token not found.") ∧
    (∀ (st : GuestAuthState) (res : ActivateResponse) (now : Nat),
      res.ok = true → res.body = some (some .nonString) →
      (updateGuestToken st res now).2 = .error "guest_token was not a string.") ∧
    (∀ (st : GuestAuthState) (res : ActivateResponse) (now : Nat) (t : String),
      res.ok = true → res.body = some (some (.str t)) →
      updateGuestToken st res now =
        ({ guestToken := some t, guestCreatedAt := some now,
           jar := updateCookieJar st.jar res.headers }, .ok ())) := by
  refine ⟨fun st now => ?_, fun st res now => ?_, fun st res now h => ?_,
    fun st res now h hb => ?_, fun st res now h hb => ?_, fun st res now t h hb => ?_⟩
  · cases hGT : st.guestToken <;> cases hCA : st.guestCreatedAt <;>
      (simp [shouldUpdate, hasToken, hGT, hCA]; try omega)
  · rcases res with ⟨ok, errText, body, headers⟩
    cases ok
    · rfl
    · rcases body with _ | (_ | f)
      · rfl
      · rfl
      · cases f <;> rfl
  · simp [updateGuestToken, h]
  · rcases hb with hb | hb <;> simp [updateGuestToken, h, hb]
  · simp [updateGuestToken, h, hb]
  · simp [updateGuestToken, h, hb]

/-- Witness for `guestToken_refresh_spec`: a stale-token state triggers a
refresh, a failed activation response reports its body text, a successful one
stores the token with the current clock, and both merge the cookies. -/
theorem guestToken_refresh_spec_witness :
    shouldUpdate { guestToken := some "old", guestCreatedAt := some 0, jar := [] } 10800001 = true ∧
    (updateGuestToken { guestToken := some "old", guestCreatedAt := some 0, jar := [("k", "v")] }
       { ok := false, errText := "boom", body := none, headers := [("c", "d")] } 99).2 =
      .error "boom" ∧
    updateGuestToken { guestToken := none, guestCreatedAt := none, jar := [] }
       { ok := true, errText := "", body := some (some (.str "tok")), headers := [("a", "b")] } 7 =
      ({ guestToken := some "tok", guestCreatedAt := some 7, jar := [("a", "b")] }, .ok ()) := by
  refine ⟨?_, ?_, ?_⟩
  · exact (guestToken_refresh_spec.1 _ 10800001).2 (Or.inr ⟨0, rfl, by decide⟩)
  · exact guestToken_refresh_spec.2.2.1 _ _ _ rfl
  · have h := guestToken_refresh_spec.2.2.2.2.2
      { guestToken := none, guestCreatedAt := none, jar := [] }
      { ok := true, errText := "", body := some (some (.str "tok")), headers := [("a", "b")] }
      7 "tok" rfl rfl
    simpa [updateCookieJar] using h

/-- C1 (counterexample): a flow response whose `flow_token` is missing (or
not a string) is not retried at all — `executeFlowTask` resolves to the
`Invalid flow token` error result after a single fetch, with no backoff
sleep, contradicting the claim that this trigger is retried up to 3 times
with exponential backoff. -/
theorem executeFlowTask_flowToken_no_retry_cex :
    executeFlowTask (some "guest") (fun _ => .flowResponse none [] []) .init 0 =
      .ok { result := .error "Invalid flow token", next := 1, delays := [],
            sent := [.init] } := rfl

/-- C1 (amended): a non-success HTTP status, a transport rejection and a
non-empty platform error list are each retried up to 3 times with sleeps of
`2 ^ retryCount` seconds (1 s, 2 s, 4 s) and then resolve to an error result
carrying the last attempt's cause; a missing or non-string flow token
resolves to the `Invalid flow token` error immediately, without any retry,
even when platform errors are also present; and a `DenyLoginSubtask` first
subtask is retried the same 3 times but, once the budget is exhausted,
resolves to a success result carrying the deny subtask rather than an error. -/
theorem executeFlowTask_retry_policy (g : String) (data : FlowRequest)
    (m : Nat → String) (tok : Nat → String) (c : Nat → Nat)
    (errs : List TwitterApiErrorRaw) (subs : List TwitterUserAuthSubtask) :
    executeFlowTask (some g) (fun n => .httpError (m n)) data 0 =
      .ok { result := .error (m 3), next := 4, delays := [1000, 2000, 4000],
            sent := [data, data, data, data] } ∧
    executeFlowTask (some g) (fun n => .fetchError (m n)) data 0 =
      .ok { result := .error (m 3), next := 4, delays := [1000, 2000, 4000],
            sent := [data, data, data, data] } ∧
    executeFlowTask (some g)
        (fun n => .flowResponse (some (tok n)) [{ code := c n, message := m n }] []) data 0 =
      .ok { result := .error ("Authentication error (" ++ toString (c 3) ++ "): " ++ m 3),
            next := 4, delays := [1000, 2000, 4000],
            sent := [data, data, data, data] } ∧
    executeFlowTask (some g) (fun _ => .flowResponse none errs subs) data 0 =
      .ok { result := .error "Invalid flow token", next := 1, delays := [],
            sent := [data] } ∧
    executeFlowTask (some g)
        (fun n => .flowResponse (some (tok n)) [] [{ subtask_id := "DenyLoginSubtask" }]) data 0 =
      .ok { result := .success (tok 3) (some { subtask_id := "DenyLoginSubtask" }),
            next := 4, delays := [1000, 2000, 4000],
            sent := [data, data, data, data] } :=
  ⟨rfl, rfl, rfl, rfl, rfl⟩

/-- C2: for the mocked flow-response sequence requesting
[instrumentation → identifier → password → success], with no
duplication-check and no two-factor challenge, `login` performs exactly the
flow-init request followed by the instrumentation, identifier and password
submissions and the final success handshake, in that order and nothing else,
and resolves successfully. -/
theorem login_happy_path_order :
    login (some "guest")
      (fun n =>
        if n = 0 then .flowResponse (some "t0") [] [{ subtask_id := "LoginJsInstrumentationSubtask" }]
        else if n = 1 then .flowResponse (some "t1") [] [{ subtask_id := "LoginEnterUserIdentifierSSO" }]
        else if n = 2 then .flowResponse (some "t2") [] [{ subtask_id := "LoginEnterPassword" }]
        else if n = 3 then .flowResponse (some "t3") [] [{ subtask_id := "LoginSuccessSubtask" }]
        else .flowResponse (some "t4") [] [])
      "user" "pass" "mail" none (fun _ _ => "000000") =
    { outcome := .ok,
      sent := [.init,
               .subtaskInput (some "t0") "LoginJsInstrumentationSubtask" none,
               .subtaskInput (some "t1") "LoginEnterUserIdentifierSSO" (some "user"),
               .subtaskInput (some "t2") "LoginEnterPassword" (some "pass"),
               .emptyInput (some "t3")],
      delays := [] } := by decide

/-- C3 (counterexample): a two-factor code rejected twice by the platform and
then accepted does not reach the loop's 3rd attempt with linear 2 s / 4 s
delays — the rejections are error results, not throws, so they are retried
inside `executeFlowTask` with exponential backoff: the step succeeds within
the first loop attempt after sleeps of 1 s and 2 s (not 2 s and 4 s),
resubmitting the code generated for attempt 1 all three times. -/
theorem twoFactor_reject_twice_cex :
    handleTwoFactorAuthChallenge (some "guest")
      (fun n => if n < 2 then .flowResponse (some "ta") [{ code := 399, message := "wrong code" }] []
                else .flowResponse (some "tb") [] [])
      "ft" (fun a => "code" ++ toString a) 0 =
      { outcome := .returned (.success "tb" none) 3,
        delays := [1000, 2000],
        sent := [.subtaskInput (some "ft") "LoginTwoFactorAuthChallenge" (some "code1"),
                 .subtaskInput (some "ft") "LoginTwoFactorAuthChallenge" (some "code1"),
                 .subtaskInput (some "ft") "LoginTwoFactorAuthChallenge" (some "code1")] } ∧
    [1000, 2000] ≠ [2000, 4000] := ⟨by decide, by decide⟩

/-- C3 (amended): the two-factor handler submits the code generated from the
secret and wraps the submission in a loop of up to 3 attempts whose
`attempt × 2000` ms delay runs only when the submission throws; given a guest
token the submission never throws — a clean first response returns without
any delay, and a code rejected twice then accepted is retried inside
`executeFlowTask` with exponential 1 s / 2 s sleeps and returns during the
first loop attempt; only a thrown submission (a null guest token) drives the
linear path, sleeping 2 s, 4 s and 6 s before rethrowing the stored error. -/
theorem twoFactor_retry_structure (ft g a b : String) (gen : Nat → String)
    (c : Nat → Nat) (m : Nat → String) :
    handleTwoFactorAuthChallenge (some g) (fun _ => .flowResponse (some a) [] []) ft gen 0 =
      { outcome := .returned (.success a none) 1, delays := [],
        sent := [.subtaskInput (some ft) "LoginTwoFactorAuthChallenge" (some (gen 1))] } ∧
    handleTwoFactorAuthChallenge (some g)
      (fun n => if n < 2 then .flowResponse (some a) [{ code := c n, message := m n }] []
                else .flowResponse (some b) [] []) ft gen 0 =
      { outcome := .returned (.success b none) 3, delays := [1000, 2000],
        sent := [.subtaskInput (some ft) "LoginTwoFactorAuthChallenge" (some (gen 1)),
                 .subtaskInput (some ft) "LoginTwoFactorAuthChallenge" (some (gen 1)),
                 .subtaskInput (some ft) "LoginTwoFactorAuthChallenge" (some (gen 1))] } ∧
    handleTwoFactorAuthChallenge none (fun _ => .flowResponse (some a) [] []) ft gen 0 =
      { outcome := .thrown (some "Authentication token is null or undefined."),
        delays := [2000, 4000, 6000], sent := [] } :=
  ⟨rfl, rfl, rfl⟩

/-- C4 (counterexample): a run whose intermediate responses all carry
subtask ids the engine does not recognize completes successfully — the
engine submits its fixed step sequence regardless of the ids and never fails
with any protocol error, so an unrecognized subtask id is silently ignored
rather than failing the login. -/
theorem unknown_subtasks_ignored_cex :
    login (some "guest")
      (fun n =>
        if n = 0 then .flowResponse (some "t0") [] [{ subtask_id := "WeirdSubtaskA" }]
        else if n = 1 then .flowResponse (some "t1") [] [{ subtask_id := "WeirdSubtaskB" }]
        else if n = 2 then .flowResponse (some "t2") [] [{ subtask_id := "WeirdSubtaskC" }]
        else if n = 3 then .flowResponse (some "t3") [] [{ subtask_id := "LoginSuccessSubtask" }]
        else .flowResponse (some "t4") [] [])
      "user" "pass" "mail" none (fun _ _ => "000000") =
    { outcome := .ok,
      sent := [.init,
               .subtaskInput (some "t0") "LoginJsInstrumentationSubtask" none,
               .subtaskInput (some "t1") "LoginEnterUserIdentifierSSO" (some "user"),
               .subtaskInput (some "t2") "LoginEnterPassword" (some "pass"),
               .emptyInput (some "t3")],
      delays := [] } := by decide

/-- C4 (amended): the engine never inspects a response's subtask id before
the post-password branch point — whatever ids the first three responses
carry (as long as they are not the retried `DenyLoginSubtask`), it submits
the fixed instrumentation/identifier/password sequence; when the
post-password subtask id is unrecognized (none of the duplication-check,
two-factor, success or deny ids), the unknown subtask is never submitted and
`login` rejects with the generic
`Login failed: Login flow did not complete successfully` error — no
`ProtocolError` exists anywhere in the flow. -/
theorem login_unknown_subtask_generic_error (g u p e s0 s1 s2 s3 t0 t1 t2 t3 t4 : String)
    (tf : Option String) (gen : String → Nat → String)
    (hu : u ≠ "") (hp : p ≠ "") (he : e ≠ "")
    (h0 : s0 ≠ "DenyLoginSubtask") (h1 : s1 ≠ "DenyLoginSubtask")
    (h2 : s2 ≠ "DenyLoginSubtask") (h3d : s3 ≠ "DenyLoginSubtask")
    (h3a : s3 ≠ "AccountDuplicationCheck") (h3t : s3 ≠ "LoginTwoFactorAuthChallenge")
    (h3s : s3 ≠ "LoginSuccessSubtask") :
    login (some g)
      (fun n =>
        if n = 0 then .flowResponse (some t0) [] [{ subtask_id := s0 }]
        else if n = 1 then .flowResponse (some t1) [] [{ subtask_id := s1 }]
        else if n = 2 then .flowResponse (some t2) [] [{ subtask_id := s2 }]
        else if n = 3 then .flowResponse (some t3) [] [{ subtask_id := s3 }]
        else .flowResponse (some t4) [] [])
      u p e tf gen =
    { outcome := .thrown "Login failed: Login flow did not complete successfully",
      sent := [.init,
               .subtaskInput (some t0) "LoginJsInstrumentationSubtask" none,
               .subtaskInput (some t1) "LoginEnterUserIdentifierSSO" (some u),
               .subtaskInput (some t2) "LoginEnterPassword" (some p)],
      delays := [] } := by
  simp [login, executeFlowTask, executeFlowTaskGo, loginDupCheck, loginTwoFactor, loginFinish,
    resultFlowToken, hu, hp, he, h0, h1, h2, h3d, h3a, h3t, h3s]

/-- Witness for `login_unknown_subtask_generic_error` at concrete inputs. -/
theorem login_unknown_subtask_generic_error_witness :
    login (some "guest")
      (fun n =>
        if n = 0 then .flowResponse (some "t0") [] [{ subtask_id := "MysterySubtask0" }]
        else if n = 1 then .flowResponse (some "t1") [] [{ subtask_id := "MysterySubtask1" }]
        else if n = 2 then .flowResponse (some "t2") [] [{ subtask_id := "MysterySubtask2" }]
        else if n = 3 then .flowResponse (some "t3") [] [{ subtask_id := "MysterySubtask3" }]
        else .flowResponse (some "t4") [] [])
      "user" "pass" "mail" none (fun _ _ => "000000") =
    { outcome := .thrown "Login failed: Login flow did not complete successfully",
      sent := [.init,
               .subtaskInput (some "t0") "LoginJsInstrumentationSubtask" none,
               .subtaskInput (some "t1") "LoginEnterUserIdentifierSSO" (some "user"),
               .subtaskInput (some "t2") "LoginEnterPassword" (some "pass")],
      delays := [] } :=
  login_unknown_subtask_generic_error "guest" "user" "pass" "mail"
    "MysterySubtask0" "MysterySubtask1" "MysterySubtask2" "MysterySubtask3"
    "t0" "t1" "t2" "t3" "t4" none (fun _ _ => "000000")
    (by decide) (by decide) (by decide) (by decide) (by decide) (by decide) (by decide)
    (by decide) (by decide) (by decide)

/-- C5 (counterexample): when the post-password response requests the
`LoginTwoFactorAuthChallenge` subtask and no `twoFactorSecret` was supplied,
no two-factor submission is attempted (the sent list ends with the password
step), but the login rejects with the generic
`Login failed: Login flow did not complete successfully` error — there is no
distinct `TwoFactorRequired` error anywhere in the code. -/
theorem twoFactor_without_secret_cex :
    login (some "guest")
      (fun n =>
        if n = 0 then .flowResponse (some "t0") [] [{ subtask_id := "LoginJsInstrumentationSubtask" }]
        else if n = 1 then .flowResponse (some "t1") [] [{ subtask_id := "LoginEnterUserIdentifierSSO" }]
        else if n = 2 then .flowResponse (some "t2") [] [{ subtask_id := "LoginEnterPassword" }]
        else .flowResponse (some "t3") [] [{ subtask_id := "LoginTwoFactorAuthChallenge" }])
      "user" "pass" "mail" none (fun _ _ => "000000") =
    { outcome := .thrown "Login failed: Login flow did not complete successfully",
      sent := [.init,
               .subtaskInput (some "t0") "LoginJsInstrumentationSubtask" none,
               .subtaskInput (some "t1") "LoginEnterUserIdentifierSSO" (some "user"),
               .subtaskInput (some "t2") "LoginEnterPassword" (some "pass")],
      delays := [] } := by decide

/-- C5 (amended): whenever the platform requests the two-factor challenge
subtask after the password step and `twoFactorSecret` is absent, the engine
skips the two-factor step entirely — the requests sent are exactly the
flow-init, instrumentation, identifier and password ones, with no two-factor
submission — and the overall login rejects with the generic
`Login failed: Login flow did not complete successfully` error rather than a
dedicated `TwoFactorRequired` one. -/
theorem login_twoFactor_required_no_secret (g u p e t0 t1 t2 t3 t4 : String)
    (gen : String → Nat → String) (hu : u ≠ "") (hp : p ≠ "") (he : e ≠ "") :
    login (some g)
      (fun n =>
        if n = 0 then .flowResponse (some t0) [] [{ subtask_id := "LoginJsInstrumentationSubtask" }]
        else if n = 1 then .flowResponse (some t1) [] [{ subtask_id := "LoginEnterUserIdentifierSSO" }]
        else if n = 2 then .flowResponse (some t2) [] [{ subtask_id := "LoginEnterPassword" }]
        else if n = 3 then .flowResponse (some t3) [] [{ subtask_id := "LoginTwoFactorAuthChallenge" }]
        else .flowResponse (some t4) [] [])
      u p e none gen =
    { outcome := .thrown "Login failed: Login flow did not complete successfully",
      sent := [.init,
               .subtaskInput (some t0) "LoginJsInstrumentationSubtask" none,
               .subtaskInput (some t1) "LoginEnterUserIdentifierSSO" (some u),
               .subtaskInput (some t2) "LoginEnterPassword" (some p)],
      delays := [] } := by
  simp [login, executeFlowTask, executeFlowTaskGo, loginDupCheck, loginTwoFactor, loginFinish,
    resultFlowToken, hu, hp, he]

/-- Witness for `login_twoFactor_required_no_secret` at concrete inputs. -/
theorem login_twoFactor_required_no_secret_witness :
    login (some "guest")
      (fun n =>
        if n = 0 then .flowResponse (some "a0") [] [{ subtask_id := "LoginJsInstrumentationSubtask" }]
        else if n = 1 then .flowResponse (some "a1") [] [{ subtask_id := "LoginEnterUserIdentifierSSO" }]
        else if n = 2 then .flowResponse (some "a2") [] [{ subtask_id := "LoginEnterPassword" }]
        else if n = 3 then .flowResponse (some "a3") [] [{ subtask_id := "LoginTwoFactorAuthChallenge" }]
        else .flowResponse (some "a4") [] [])
      "alice" "secretpw" "a@b.c" none (fun _ _ => "111111") =
    { outcome := .thrown "Login failed: Login flow did not complete successfully",
      sent := [.init,
               .subtaskInput (some "a0") "LoginJsInstrumentationSubtask" none,
               .subtaskInput (some "a1") "LoginEnterUserIdentifierSSO" (some "alice"),
               .subtaskInput (some "a2") "LoginEnterPassword" (some "secretpw")],
      delays := [] } :=
  login_twoFactor_required_no_secret "guest" "alice" "secretpw" "a@b.c"
    "a0" "a1" "a2" "a3" "a4" (fun _ _ => "111111") (by decide) (by decide) (by decide)

/-- Helper: if every attempt from `attempt` up to (but excluding) `k` yields
no tweet payload and attempt `k ≤ retries` succeeds, the posting loop returns
the success result built from attempt `k`'s payload, with one exponential
backoff sleep per failed attempt. -/
theorem postTweetGo_success (outcomes : Nat → AttemptOutcome) (nowIso : String)
    (retries : Nat) (i t : String) :
    ∀ (fuel attempt k : Nat), fuel = retries + 1 - attempt → attempt ≤ k → k ≤ retries →
      (∀ j, attempt ≤ j → j < k → attemptData (outcomes j) = none) →
      outcomes k = .ok i t →
      postTweetGo outcomes nowIso retries attempt fuel =
        ({ data := some { id := i, text := t, created_at := nowIso, author_id := i },
           errors := none }, backoffDelays attempt (k - attempt)) := by
  intro fuel
  induction fuel with
  | zero => intro attempt k hf hak hkr hfails hok; omega
  | succ f ih =>
    intro attempt k hf hak hkr hfails hok
    rcases Nat.eq_or_lt_of_le hak with heq | hlt
    · subst heq
      simp [postTweetGo, hok, Nat.sub_self, backoffDelays]
    · have hfa := hfails attempt le_rfl hlt
      have hne : attempt ≠ retries := by omega
      have hstep := ih (attempt + 1) k (by omega) (by omega) hkr
        (fun j hj hjk => hfails j (by omega) hjk) hok
      have hk : k - attempt = (k - (attempt + 1)) + 1 := by omega
      cases ho : outcomes attempt with
      | ok i' t' => rw [ho] at hfa; simp [attemptData] at hfa
      | noData => simp [postTweetGo, ho, hne, hstep, hk, backoffDelays]
      | fail b msg => simp [postTweetGo, ho, hne, hstep, hk, backoffDelays]

/-- Helper: if every attempt from `attempt` up to `retries` yields no tweet
payload, the posting loop returns the structured error built from the last
attempt's failure, with one exponential backoff sleep per failed attempt
before the last. -/
theorem postTweetGo_allFail (outcomes : Nat → AttemptOutcome) (nowIso : String)
    (retries : Nat) :
    ∀ (fuel attempt : Nat), fuel = retries + 1 - attempt → attempt ≤ retries →
      (∀ j, attempt ≤ j → j ≤ retries → attemptData (outcomes j) = none) →
      postTweetGo outcomes nowIso retries attempt fuel =
        ({ data := none,
           errors := some [{ code := attemptFailCode (outcomes retries),
                             message := attemptFailMessage (outcomes retries) }] },
         backoffDelays attempt (retries - attempt)) := by
  intro fuel
  induction fuel with
  | zero => intro attempt hf har hfails; omega
  | succ f ih =>
    intro attempt hf har hfails
    have hfa := hfails attempt le_rfl har
    by_cases heq : attempt = retries
    · subst heq
      cases ho : outcomes attempt with
      | ok i' t' => rw [ho] at hfa; simp [attemptData] at hfa
      | noData => simp [postTweetGo, ho, Nat.sub_self, backoffDelays]
      | fail b msg => simp [postTweetGo, ho, Nat.sub_self, backoffDelays]
    · have hstep := ih (attempt + 1) (by omega) (by omega)
        (fun j hj hjr => hfails j (by omega) hjr)
      have hk : retries - attempt = (retries - (attempt + 1)) + 1 := by omega
      cases ho : outcomes attempt with
      | ok i' t' => rw [ho] at hfa; simp [attemptData] at hfa
      | noData => simp [postTweetGo, ho, heq, hstep, hk, backoffDelays]
      | fail b msg => simp [postTweetGo, ho, heq, hstep, hk, backoffDelays]

/-- Helper: every result the posting loop returns has either a tweet payload
and no error list, or no payload and a non-empty error list. -/
theorem postTweetGo_exclusive (outcomes : Nat → AttemptOutcome) (nowIso : String)
    (retries : Nat) :
    ∀ (fuel attempt : Nat),
      ((postTweetGo outcomes nowIso retries attempt fuel).1.data.isSome = true ∧
       (postTweetGo outcomes nowIso retries attempt fuel).1.errors = none) ∨
      ((postTweetGo outcomes nowIso retries attempt fuel).1.data = none ∧
       ∃ es, (postTweetGo outcomes nowIso retries attempt fuel).1.errors = some es ∧ es ≠ []) := by
  intro fuel
  induction fuel with
  | zero => intro attempt; right; simp [postTweetGo]
  | succ f ih =>
    intro attempt
    cases ho : outcomes attempt with
    | ok i t => left; simp [postTweetGo, ho]
    | noData =>
      by_cases heq : attempt = retries
      · right; subst heq; simp [postTweetGo, ho]
      · simpa [postTweetGo, ho, heq] using ih (attempt + 1)
    | fail b msg =>
      by_cases heq : attempt = retries
      · right; subst heq; simp [postTweetGo, ho]
      · simpa [postTweetGo, ho, heq] using ih (attempt + 1)

/-- Helper: every tweet payload the posting loop returns reuses its own id as
`author_id` and stamps `created_at` with the client-side clock value. -/
theorem postTweetGo_author_time (outcomes : Nat → AttemptOutcome) (nowIso : String)
    (retries : Nat) :
    ∀ (fuel attempt : Nat) (tw : TwitterTweet),
      (postTweetGo outcomes nowIso retries attempt fuel).1.data = some tw →
      tw.author_id = tw.id ∧ tw.created_at = nowIso := by
  intro fuel
  induction fuel with
  | zero => intro attempt tw h; simp [postTweetGo] at h
  | succ f ih =>
    intro attempt tw h
    cases ho : outcomes attempt with
    | ok i t =>
      rw [show postTweetGo outcomes nowIso retries attempt (f + 1) =
          ({ data := some { id := i, text := t, created_at := nowIso, author_id := i },
             errors := none }, []) from by simp [postTweetGo, ho]] at h
      simp at h
      subst h
      exact ⟨rfl, rfl⟩
    | noData =>
      by_cases heq : attempt = retries
      · subst heq; simp [postTweetGo, ho] at h
      · exact ih (attempt + 1) tw (by simpa [postTweetGo, ho, heq] using h)
    | fail b msg =>
      by_cases heq : attempt = retries
      · subst heq; simp [postTweetGo, ho] at h
      · exact ih (attempt + 1) tw (by simpa [postTweetGo, ho, heq] using h)

/-- C8: if the attempts before attempt `k ≤ retries` fail and attempt `k`
succeeds, `postTweet` returns a success result with no errors, having slept
`2 ^ attempt` seconds after each failed attempt; if all `retries` attempts
fail, it returns a structured error result (still through the result
channel, not a throw) whose message is the last failure's message; calling
it with no authenticated API throws instead of returning a result. -/
theorem postTweet_retry_spec (outcomes : Nat → AttemptOutcome) (nowIso : String)
    (retries : Nat) :
    (∀ (k : Nat) (i t : String), 1 ≤ k → k ≤ retries →
      (∀ j, 1 ≤ j → j < k → attemptData (outcomes j) = none) →
      outcomes k = .ok i t →
      postTweet (some ()) outcomes nowIso retries =
        .ok ({ data := some { id := i, text := t, created_at := nowIso, author_id := i },
               errors := none }, backoffDelays 1 (k - 1))) ∧
    (1 ≤ retries →
      (∀ j, 1 ≤ j → j ≤ retries → attemptData (outcomes j) = none) →
      postTweet (some ()) outcomes nowIso retries =
        .ok ({ data := none,
               errors := some [{ code := attemptFailCode (outcomes retries),
                                 message := attemptFailMessage (outcomes retries) }] },
             backoffDelays 1 (retries - 1))) ∧
    postTweet none outcomes nowIso retries =
      .error "Not authenticated. Call initialize() first." := by
  refine ⟨fun k i t h1 hkr hfails hok => ?_, fun h1 hfails => ?_, rfl⟩
  · have h := postTweetGo_success outcomes nowIso retries i t retries 1 k
      (by omega) h1 hkr hfails hok
    simpa [postTweet] using h
  · have h := postTweetGo_allFail outcomes nowIso retries retries 1 (by omega) h1 hfails
    simpa [postTweet] using h

/-- Witness for `postTweet_retry_spec`: with `retries = 3`, two failures then
a success return the success result after 2 s and 4 s backoffs. -/
theorem postTweet_retry_spec_witness :
    postTweet (some ())
      (fun j => if j < 3 then .fail true ("err" ++ toString j) else .ok "99" "hello")
      "2026-01-01T00:00:00.000Z" 3 =
      .ok ({ data := some { id := "99", text := "hello",
                            created_at := "2026-01-01T00:00:00.000Z", author_id := "99" },
             errors := none }, [2000, 4000]) := by
  have h := (postTweet_retry_spec
      (fun j => if j < 3 then .fail true ("err" ++ toString j) else .ok "99" "hello")
      "2026-01-01T00:00:00.000Z" 3).1 3 "99" "hello" (by decide) (by decide)
      (fun j hj hjk => by
        have hj12 : j = 1 ∨ j = 2 := by omega
        rcases hj12 with hj1 | hj2 <;> subst_vars <;> decide)
      (by decide)
  exact h

/-- C9: every result `postTweet` returns (as opposed to the
pre-initialization throw) has exactly one of its two fields: either a tweet
payload and no error list, or no payload and a non-empty error list. -/
theorem postTweet_result_exclusive (api : Option Unit) (outcomes : Nat → AttemptOutcome)
    (nowIso : String) (retries : Nat) :
    ∀ (res : TwitterRespT) (ds : List Nat),
      postTweet api outcomes nowIso retries = .ok (res, ds) →
      (res.data.isSome = true ∧ res.errors = none) ∨
      (res.data = none ∧ ∃ es, res.errors = some es ∧ es ≠ []) := by
  intro res ds h
  cases api with
  | none => simp [postTweet] at h
  | some _ =>
    simp only [postTweet, Except.ok.injEq] at h
    have hx := postTweetGo_exclusive outcomes nowIso retries retries 1
    rw [h] at hx
    simpa using hx

/-- Witness for `postTweet_result_exclusive` at a run that succeeds on the
first attempt. -/
theorem postTweet_result_exclusive_witness :
    (({ data := some { id := "1", text := "hi", created_at := "now", author_id := "1" }, errors := none } : TwitterRespT).data.isSome = true ∧
     ({ data := some { id := "1", text := "hi", created_at := "now", author_id := "1" }, errors := none } : TwitterRespT).errors = none) ∨
    (({ data := some { id := "1", text := "hi", created_at := "now", author_id := "1" }, errors := none } : TwitterRespT).data = none ∧
     ∃ es, ({ data := some { id := "1", text := "hi", created_at := "now", author_id := "1" }, errors := none } : TwitterRespT).errors = some es ∧ es ≠ []) :=
  postTweet_result_exclusive (some ()) (fun _ => .ok "1" "hi") "now" 3 _ [] rfl

/-- C10: in every success result `postTweet` returns, the `author_id` equals
the tweet's own `id`, and `created_at` is the client-side clock value at
response handling (the platform's `TweetV2` payload carries no timestamp to
copy). -/
theorem postTweet_author_created (api : Option Unit) (outcomes : Nat → AttemptOutcome)
    (nowIso : String) (retries : Nat) :
    ∀ (res : TwitterRespT) (ds : List Nat) (tw : TwitterTweet),
      postTweet api outcomes nowIso retries = .ok (res, ds) →
      res.data = some tw →
      tw.author_id = tw.id ∧ tw.created_at = nowIso := by
  intro res ds tw h hd
  cases api with
  | none => simp [postTweet] at h
  | some _ =>
    simp only [postTweet, Except.ok.injEq] at h
    have hx := postTweetGo_author_time outcomes nowIso retries retries 1 tw
    rw [h] at hx
    exact hx hd

/-- Witness for `postTweet_author_created` at a run that succeeds on the
first attempt. -/
theorem postTweet_author_created_witness :
    ({ id := "7", text := "x", created_at := "T", author_id := "7" } : TwitterTweet).author_id =
      ({ id := "7", text := "x", created_at := "T", author_id := "7" } : TwitterTweet).id ∧
    ({ id := "7", text := "x", created_at := "T", author_id := "7" } : TwitterTweet).created_at =
      "T" :=
  postTweet_author_created (some ()) (fun _ => .ok "7" "x") "T" 3 _ [] _ rfl rfl
